import Mathlib

/-!
Shallow embedding of the ISOLDE core (dihedral manager, position/distance
restraints) and proofs about its specified behaviour.

Real-valued quantities that the source manipulates only through comparison,
assignment and clamping are embedded as rationals so that every operation is
executable; the angle-wrapping and radius computations, which use `remainder`,
`sqrt` and pi, are embedded over the reals.  Pointers (atoms, residues,
dihedrals) are embedded as natural-number identities in a single identity
space, matching the `void*` identity sets the destruction callbacks receive.
-/

namespace Isolde

/-! ## Constants (src/isolde/src/constants.h) -/

def LINEAR_RESTRAINT_MAX_RADIUS : ℝ := 0.3

def LINEAR_RESTRAINT_MIN_RADIUS : ℝ := 0.025

def MAX_LINEAR_SPRING_CONSTANT : ℚ := 100000.0

def MIN_DISTANCE_RESTRAINT_TARGET : ℚ := 1.0

/-! ## Change tracker reason flags

The change tracker itself (`changetracker.h`) is external to the sampled
source; the setters below return the list of reason flags they hand to
`Change_Tracker::track_change`, which is what the claims are about. -/

inductive Reason where
  | TARGET_CHANGED
  | SPRING_CONSTANT_CHANGED
  | ENABLED_CHANGED
deriving DecidableEq

/-! ## Distance_Restraint (src/isolde/src/restraints_cpp/distance_restraints.cpp)

State of a `Distance_Restraint`: the two bonded-atom identities, the target
distance, the spring constant and the enabled flag.  Each setter returns the
updated state together with the change-tracker events it records. -/

structure Distance_Restraint where
  atom1 : ℕ
  atom2 : ℕ
  target : ℚ
  spring_constant : ℚ
  enabled : Bool
deriving DecidableEq

def Distance_Restraint.set_target (r : Distance_Restraint) (target : ℚ) :
    Distance_Restraint × List Reason :=
  ({ r with target :=
      if target < MIN_DISTANCE_RESTRAINT_TARGET then MIN_DISTANCE_RESTRAINT_TARGET
      else target },
   [Reason.TARGET_CHANGED])

def Distance_Restraint.set_k (r : Distance_Restraint) (k : ℚ) :
    Distance_Restraint × List Reason :=
  ({ r with spring_constant :=
      if k < 0 then 0.0 else if k > MAX_LINEAR_SPRING_CONSTANT then MAX_LINEAR_SPRING_CONSTANT else k },
   [Reason.SPRING_CONSTANT_CHANGED])

def Distance_Restraint.set_enabled (r : Distance_Restraint) (flag : Bool) :
    Distance_Restraint × List Reason :=
  if r.enabled ≠ flag then
    ({ r with enabled := flag }, [Reason.ENABLED_CHANGED])
  else
    (r, [])

/-! ## Position_Restraint (src/unnamed/part_003, position_restraints.h) -/

structure Position_Restraint where
  atom : ℕ
  target : ℚ × ℚ × ℚ
  spring_constant : ℚ
  enabled : Bool
deriving DecidableEq

def Position_Restraint.set_target (r : Position_Restraint) (x y z : ℚ) :
    Position_Restraint × List Reason :=
  ({ r with target := (x, y, z) }, [Reason.TARGET_CHANGED])

def Position_Restraint.set_k (r : Position_Restraint) (k : ℚ) :
    Position_Restraint × List Reason :=
  ({ r with spring_constant :=
      if k < 0 then 0.0 else if k > MAX_LINEAR_SPRING_CONSTANT then MAX_LINEAR_SPRING_CONSTANT else k },
   [Reason.SPRING_CONSTANT_CHANGED])

def Position_Restraint.set_enabled (r : Position_Restraint) (flag : Bool) :
    Position_Restraint × List Reason :=
  if r.enabled ≠ flag then
    ({ r with enabled := flag }, [Reason.ENABLED_CHANGED])
  else
    (r, [])

end Isolde

namespace Isolde

/-! ## Claim C4: spring-constant clamping -/

/-- Claim C4: for every restraint (position or distance) and every value `v`,
after `set_k v` the stored spring constant equals `0` when `v < 0`, equals
`MAX_LINEAR_SPRING_CONSTANT` when `v > MAX_LINEAR_SPRING_CONSTANT`, and equals
`v` otherwise. -/
theorem set_k_clamps (dr : Distance_Restraint) (pr : Position_Restraint) (v : ℚ) :
    ((v < 0 → (dr.set_k v).1.spring_constant = 0 ∧ (pr.set_k v).1.spring_constant = 0) ∧
     (v > MAX_LINEAR_SPRING_CONSTANT →
        (dr.set_k v).1.spring_constant = MAX_LINEAR_SPRING_CONSTANT ∧
        (pr.set_k v).1.spring_constant = MAX_LINEAR_SPRING_CONSTANT) ∧
     (0 ≤ v → v ≤ MAX_LINEAR_SPRING_CONSTANT →
        (dr.set_k v).1.spring_constant = v ∧ (pr.set_k v).1.spring_constant = v)) := by
  refine ⟨fun hneg => ?_, fun hbig => ?_, fun h0 h1 => ?_⟩
  · simp [Distance_Restraint.set_k, Position_Restraint.set_k, hneg]
    norm_num
  · have : ¬ v < 0 := not_lt.mpr (le_trans (by norm_num [MAX_LINEAR_SPRING_CONSTANT]) hbig.le)
    simp [Distance_Restraint.set_k, Position_Restraint.set_k, this, hbig]
  · simp [Distance_Restraint.set_k, Position_Restraint.set_k, not_lt.mpr h0, not_lt.mpr h1]

/-- Witness for C4: the clamp evaluated at `-5`, `200000` and `42` on concrete
restraints. -/
theorem set_k_clamps_witness :
    ((Isolde.Distance_Restraint.set_k ⟨1, 2, 3, 4, true⟩ (-5)).1.spring_constant = 0 ∧
     (Isolde.Position_Restraint.set_k ⟨1, (0, 0, 0), 4, true⟩ (-5)).1.spring_constant = 0) ∧
    ((Isolde.Distance_Restraint.set_k ⟨1, 2, 3, 4, true⟩ 200000).1.spring_constant =
        MAX_LINEAR_SPRING_CONSTANT ∧
     (Isolde.Position_Restraint.set_k ⟨1, (0, 0, 0), 4, true⟩ 200000).1.spring_constant =
        MAX_LINEAR_SPRING_CONSTANT) ∧
    ((Isolde.Distance_Restraint.set_k ⟨1, 2, 3, 4, true⟩ 42).1.spring_constant = 42 ∧
     (Isolde.Position_Restraint.set_k ⟨1, (0, 0, 0), 4, true⟩ 42).1.spring_constant = 42) :=
  ⟨(set_k_clamps ⟨1, 2, 3, 4, true⟩ ⟨1, (0, 0, 0), 4, true⟩ (-5)).1 (by norm_num),
   (set_k_clamps ⟨1, 2, 3, 4, true⟩ ⟨1, (0, 0, 0), 4, true⟩ 200000).2.1
     (by norm_num [MAX_LINEAR_SPRING_CONSTANT]),
   (set_k_clamps ⟨1, 2, 3, 4, true⟩ ⟨1, (0, 0, 0), 4, true⟩ 42).2.2 (by norm_num)
     (by norm_num [MAX_LINEAR_SPRING_CONSTANT])⟩

/-! ## Claim C2: change events on setters -/

/-- Counterexample for C2 as stated: a `Distance_Restraint` already storing
target `5` records a `TARGET_CHANGED` event when `set_target 5` writes the
already-stored value, although the claim says a no-op write records no
event. -/
theorem set_target_noop_records_event :
    (Isolde.Distance_Restraint.set_target ⟨1, 2, 5, 10, true⟩ 5).1 = ⟨1, 2, 5, 10, true⟩ ∧
    (Isolde.Distance_Restraint.set_target ⟨1, 2, 5, 10, true⟩ 5).2 = [Reason.TARGET_CHANGED] := by
  constructor
  · simp [Distance_Restraint.set_target]
    norm_num [MIN_DISTANCE_RESTRAINT_TARGET]
  · rfl

/-- Claim C2 (amended): for both restraint kinds, `set_enabled` records an
`ENABLED_CHANGED` event if and only if the new flag differs from the stored
flag, while `set_target` and `set_k` record their `TARGET_CHANGED` /
`SPRING_CONSTANT_CHANGED` events unconditionally, even when the written value
equals the stored one. -/
theorem setter_events (dr : Distance_Restraint) (pr : Position_Restraint)
    (t k : ℚ) (x y z : ℚ) (flag : Bool) :
    (dr.set_target t).2 = [Reason.TARGET_CHANGED] ∧
    (dr.set_k k).2 = [Reason.SPRING_CONSTANT_CHANGED] ∧
    (dr.set_enabled flag).2 = (if dr.enabled ≠ flag then [Reason.ENABLED_CHANGED] else []) ∧
    (pr.set_target x y z).2 = [Reason.TARGET_CHANGED] ∧
    (pr.set_k k).2 = [Reason.SPRING_CONSTANT_CHANGED] ∧
    (pr.set_enabled flag).2 = (if pr.enabled ≠ flag then [Reason.ENABLED_CHANGED] else []) := by
  refine ⟨rfl, rfl, ?_, rfl, rfl, ?_⟩
  · unfold Distance_Restraint.set_enabled
    split <;> simp_all
  · unfold Position_Restraint.set_enabled
    split <;> simp_all

/-! ## Claim C9: idempotence of set_enabled -/

/-- Claim C9: for both restraint kinds, calling `set_enabled flag` twice in
succession records exactly one `ENABLED_CHANGED` event in total when the flag
differed from the initial state (and none otherwise); the second call records
nothing. -/
theorem set_enabled_idempotent (dr : Distance_Restraint) (pr : Position_Restraint) (flag : Bool) :
    ((dr.set_enabled flag).1.set_enabled flag).2 = [] ∧
    (dr.set_enabled flag).2 ++ ((dr.set_enabled flag).1.set_enabled flag).2 =
      (if dr.enabled ≠ flag then [Reason.ENABLED_CHANGED] else []) ∧
    ((pr.set_enabled flag).1.set_enabled flag).2 = [] ∧
    (pr.set_enabled flag).2 ++ ((pr.set_enabled flag).1.set_enabled flag).2 =
      (if pr.enabled ≠ flag then [Reason.ENABLED_CHANGED] else []) := by
  unfold Distance_Restraint.set_enabled Position_Restraint.set_enabled
  by_cases hd : dr.enabled = flag <;> by_cases hp : pr.enabled = flag <;> simp [hd, hp]

/-! ## Claim C7: distance-restraint target floor -/

/-- Claim C7: after `set_target t` the stored target equals `t` when
`t ≥ MIN_DISTANCE_RESTRAINT_TARGET` and equals `MIN_DISTANCE_RESTRAINT_TARGET`
otherwise; the stored target is always at least the floor, and the other
setters leave the target unchanged, so the invariant
`target ≥ MIN_DISTANCE_RESTRAINT_TARGET` is preserved by every operation. -/
theorem set_target_floor (r : Distance_Restraint) (t k : ℚ) (flag : Bool) :
    ((r.set_target t).1.target =
       if t < MIN_DISTANCE_RESTRAINT_TARGET then MIN_DISTANCE_RESTRAINT_TARGET else t) ∧
    MIN_DISTANCE_RESTRAINT_TARGET ≤ (r.set_target t).1.target ∧
    (MIN_DISTANCE_RESTRAINT_TARGET ≤ r.target →
       MIN_DISTANCE_RESTRAINT_TARGET ≤ (r.set_k k).1.target ∧
       MIN_DISTANCE_RESTRAINT_TARGET ≤ (r.set_enabled flag).1.target) := by
  refine ⟨rfl, ?_, fun hinv => ⟨hinv, ?_⟩⟩
  · unfold Distance_Restraint.set_target
    dsimp only
    split
    · exact le_refl _
    · exact le_of_not_lt (by assumption)
  · unfold Distance_Restraint.set_enabled
    split <;> simpa

/-- Witness for C7: the floor evaluated on a concrete restraint, with the
invariant-preservation hypothesis discharged at target `3`. -/
theorem set_target_floor_witness :
    ((Isolde.Distance_Restraint.set_target ⟨1, 2, 3, 4, true⟩ (1/2)).1.target =
       if (1/2 : ℚ) < MIN_DISTANCE_RESTRAINT_TARGET then MIN_DISTANCE_RESTRAINT_TARGET
       else (1/2 : ℚ)) ∧
    MIN_DISTANCE_RESTRAINT_TARGET ≤
      (Isolde.Distance_Restraint.set_target ⟨1, 2, 3, 4, true⟩ (1/2)).1.target ∧
    (MIN_DISTANCE_RESTRAINT_TARGET ≤
       (Isolde.Distance_Restraint.set_k ⟨1, 2, 3, 4, true⟩ 7).1.target ∧
     MIN_DISTANCE_RESTRAINT_TARGET ≤
       (Isolde.Distance_Restraint.set_enabled ⟨1, 2, 3, 4, true⟩ false).1.target) :=
  ⟨(set_target_floor ⟨1, 2, 3, 4, true⟩ (1/2) 7 false).1,
   (set_target_floor ⟨1, 2, 3, 4, true⟩ (1/2) 7 false).2.1,
   (set_target_floor ⟨1, 2, 3, 4, true⟩ (1/2) 7 false).2.2
     (by norm_num [MIN_DISTANCE_RESTRAINT_TARGET])⟩

/-! ## Angle wrapping (src/unnamed/part_002, `Dihedral::set_target`)

`Dihedral::set_target(val)` stores `remainder(val, TWO_PI)`.  The C library
`remainder(x, y)` returns `x - n*y` where `n` is the integer nearest to `x/y`,
rounding half-way cases to the even integer. -/

noncomputable def TWO_PI : ℝ := 2.0 * Real.pi

open Classical in
/-- The integer nearest to `x`, half-way cases rounded to even, as used by the
C `remainder` function. -/
noncomputable def round_half_even (x : ℝ) : ℤ :=
  if x - ⌊x⌋ = 1 / 2 then (if Even ⌊x⌋ then ⌊x⌋ else ⌊x⌋ + 1) else round x

/-- C `remainder(x, y) = x - n*y` with `n` the round-to-nearest-even integer
quotient. -/
noncomputable def c_remainder (x y : ℝ) : ℝ :=
  x - (round_half_even (x / y) : ℝ) * y

/-- `Dihedral::set_target` composed with `Dihedral::target`: the stored
`_target_angle`. -/
noncomputable def Dihedral.set_target (val : ℝ) : ℝ :=
  c_remainder val TWO_PI

theorem abs_sub_round_half_even (x : ℝ) : |x - (round_half_even x : ℝ)| ≤ 1 / 2 := by
  unfold round_half_even
  split
  · rename_i h
    split
    · rw [h, abs_le]
      norm_num
    · have h1 : x - ((⌊x⌋ + 1 : ℤ) : ℝ) = (x - ⌊x⌋) - 1 := by
        push_cast
        ring
      rw [h1, h, abs_le]
      norm_num
  · exact abs_sub_round x

/-! ## Claim C5: target-angle normalization -/

/-- Counterexample for C5 as stated: `set_target (3π)` stores `-π`, which lies
outside the claimed interval `(-π, π]`; `remainder`'s round-half-to-even rule
sends the half-way point `3π/(2π) = 3/2` up to `2`. -/
theorem set_target_three_pi :
    Dihedral.set_target (3 * Real.pi) = -Real.pi ∧
    Dihedral.set_target (3 * Real.pi) ∉ Set.Ioc (-Real.pi) Real.pi := by
  have hq : (3 * Real.pi) / TWO_PI = 3 / 2 := by
    rw [TWO_PI]
    rw [div_eq_iff (by positivity)]
    ring
  have hfloor : ⌊(3 / 2 : ℝ)⌋ = 1 := by
    rw [Int.floor_eq_iff]
    norm_num
  have hrne : round_half_even ((3 * Real.pi) / TWO_PI) = 2 := by
    rw [hq]
    unfold round_half_even
    rw [hfloor]
    rw [if_pos (by push_cast; norm_num)]
    rw [if_neg (by decide)]
    decide
  have hval : Dihedral.set_target (3 * Real.pi) = -Real.pi := by
    rw [Dihedral.set_target, c_remainder, hrne, TWO_PI]
    push_cast
    ring
  refine ⟨hval, ?_⟩
  rw [hval, Set.mem_Ioc]
  intro hmem
  exact lt_irrefl _ hmem.1

/-- Claim C5 (amended): for every real `x`, `set_target x` followed by
`target()` returns a value in the closed interval `[-π, π]` that differs from
`x` by an integer multiple of `2π`.  (The endpoint `-π` is attainable, so the
interval is closed on the left, not half-open as claimed.) -/
theorem set_target_wraps (x : ℝ) :
    Dihedral.set_target x ∈ Set.Icc (-Real.pi) Real.pi ∧
    ∃ n : ℤ, x - Dihedral.set_target x = (n : ℝ) * TWO_PI := by
  constructor
  · have hpos : (0 : ℝ) < TWO_PI := by
      rw [TWO_PI]
      positivity
    have hx : x = (x / TWO_PI) * TWO_PI := (div_mul_cancel₀ x hpos.ne').symm
    have hbound := abs_sub_round_half_even (x / TWO_PI)
    have habs : |Dihedral.set_target x| ≤ Real.pi := by
      rw [Dihedral.set_target, c_remainder]
      calc |x - (round_half_even (x / TWO_PI) : ℝ) * TWO_PI|
          = |(x / TWO_PI - (round_half_even (x / TWO_PI) : ℝ)) * TWO_PI| := by
            rw [sub_mul]
            rw [← hx]
        _ = |x / TWO_PI - (round_half_even (x / TWO_PI) : ℝ)| * |TWO_PI| := abs_mul _ _
        _ ≤ (1 / 2) * |TWO_PI| := by
            exact mul_le_mul_of_nonneg_right hbound (abs_nonneg _)
        _ = Real.pi := by
            rw [abs_of_pos hpos, TWO_PI]
            ring
    rw [Set.mem_Icc]
    exact abs_le.mp habs
  · exact ⟨round_half_even (x / TWO_PI), by rw [Dihedral.set_target, c_remainder]; ring⟩

/-! ## Claim C6: restraint visual radii
(src/isolde/src/restraints_cpp/distance_restraints.cpp `Distance_Restraint::radius`,
src/unnamed/part_003 `Position_Restraint::radius`) -/

noncomputable def Distance_Restraint.radius (spring_constant : ℝ) : ℝ :=
  Real.sqrt (spring_constant / (MAX_LINEAR_SPRING_CONSTANT : ℝ))
    * (LINEAR_RESTRAINT_MAX_RADIUS - LINEAR_RESTRAINT_MIN_RADIUS) + LINEAR_RESTRAINT_MIN_RADIUS

noncomputable def Position_Restraint.radius (spring_constant : ℝ) : ℝ :=
  spring_constant / (MAX_LINEAR_SPRING_CONSTANT : ℝ)
    * (LINEAR_RESTRAINT_MAX_RADIUS - LINEAR_RESTRAINT_MIN_RADIUS) + LINEAR_RESTRAINT_MIN_RADIUS

/-- Claim C6: the visual radius is derived from the stored spring constant `k`
with square-root scaling for distance restraints and linear scaling for
position restraints, interpolated between the configured minimum and maximum
radii. -/
theorem radius_formulas (k : ℝ) :
    Distance_Restraint.radius k =
      Real.sqrt (k / (MAX_LINEAR_SPRING_CONSTANT : ℝ))
        * (LINEAR_RESTRAINT_MAX_RADIUS - LINEAR_RESTRAINT_MIN_RADIUS)
        + LINEAR_RESTRAINT_MIN_RADIUS ∧
    Position_Restraint.radius k =
      k / (MAX_LINEAR_SPRING_CONSTANT : ℝ)
        * (LINEAR_RESTRAINT_MAX_RADIUS - LINEAR_RESTRAINT_MIN_RADIUS)
        + LINEAR_RESTRAINT_MIN_RADIUS :=
  ⟨rfl, rfl⟩

/-! ## Association lists

`std::unordered_map` is embedded as an association list: `alist_lookup` is
`find`/`at`, `alist_set` is `operator[]` followed by assignment (overwrite the
existing entry or append a new one). -/

def alist_lookup {A B : Type} [DecidableEq A] : List (A × B) → A → Option B
  | [], _ => none
  | x :: xs, a => if x.1 = a then some x.2 else alist_lookup xs a

def alist_set {A B : Type} [DecidableEq A] : List (A × B) → A → B → List (A × B)
  | [], a, b => [(a, b)]
  | x :: xs, a, b => if x.1 = a then (a, b) :: xs else x :: alist_set xs a b

theorem alist_lookup_set_self {A B : Type} [DecidableEq A] (l : List (A × B)) (a : A) (b : B) :
    alist_lookup (alist_set l a b) a = some b := by
  induction l with
  | nil => simp [alist_set, alist_lookup]
  | cons x xs ih =>
    by_cases h : x.1 = a
    · simp [alist_set, alist_lookup, h]
    · simp [alist_set, alist_lookup, h, ih]

theorem alist_lookup_set_ne {A B : Type} [DecidableEq A] (l : List (A × B)) (a a' : A) (b : B)
    (h : a' ≠ a) : alist_lookup (alist_set l a b) a' = alist_lookup l a' := by
  have h2 : ¬ a = a' := fun hc => h hc.symm
  induction l with
  | nil => simp [alist_set, alist_lookup, h2]
  | cons x xs ih =>
    by_cases hx : x.1 = a
    · rw [alist_set]
      simp only [hx, if_pos]
      rw [alist_lookup, alist_lookup, if_neg h2, if_neg (hx ▸ h2)]
    · simp [alist_set, alist_lookup, hx, ih]

/-! ## Dihedral_Mgr (src/isolde/src/atomic_cpp/dihedral_mgr.h/.cpp)

Pointers are natural-number identities drawn from the single `void*` identity
space used by the destruction callback.  A `Proper_Dihedral` object carries
its four atom identities, its optional owning residue and its name
(src/unnamed/part_002); the manager state carries the `Residue* -> name ->
DType*` instance map, the `resname -> dihedral name -> definition` registry
and the owned-dihedral vector. -/

abbrev d_def : Type := List String × List Bool

structure Proper_Dihedral_Obj where
  atoms : List ℕ
  residue : Option ℕ
  name : String
deriving DecidableEq

structure Dihedral_Mgr where
  residue_map : List (ℕ × List (String × ℕ))
  residue_name_map : List (String × List (String × d_def))
  dihedrals : List ℕ
deriving DecidableEq

/-- `Dihedral_Mgr()` default-constructs with empty maps. -/
def Dihedral_Mgr.init : Dihedral_Mgr := ⟨[], [], []⟩

/-- `Dihedral_Mgr::add_dihedral_def`: `operator[]` materialises the per-residue
map, a successful `at(dname)` raises the duplicate error (leaving the registry
as it was), an `out_of_range` miss stores the new definition.  The returned
`Option String` is the raised error message, `none` on success. -/
def Dihedral_Mgr.add_dihedral_def (m : Dihedral_Mgr) (rname dname : String)
    (anames : List String) (externals : List Bool) : Dihedral_Mgr × Option String :=
  let am := (alist_lookup m.residue_name_map rname).getD []
  match alist_lookup am dname with
  | some _ => (m, some "Dihedral definition already exists!")
  | none =>
    ({ m with residue_name_map :=
        alist_set m.residue_name_map rname (alist_set am dname (anames, externals)) },
     none)

/-- `Dihedral_Mgr::get_dihedral_def`: nested `at` lookups, `out_of_range`
rethrown as an unrecognised-definition error. -/
def Dihedral_Mgr.get_dihedral_def (m : Dihedral_Mgr) (rname dname : String) :
    Except String d_def :=
  match alist_lookup m.residue_name_map rname with
  | none => Except.error "Unrecognised dihedral def!"
  | some am =>
    match alist_lookup am dname with
    | none => Except.error "Unrecognised dihedral def!"
    | some dd => Except.ok dd

/-- `Dihedral_Mgr::num_mapped_dihedrals`: counts one per `(residue, name)`
entry of the residue map. -/
def Dihedral_Mgr.num_mapped_dihedrals (m : Dihedral_Mgr) : ℕ :=
  (m.residue_map.map (fun rm => rm.2.length)).sum

/-- `Dihedral_Mgr::add_dihedral(d)`: push `d` onto the vector unless already
present; then, if `d->residue()` does not throw and the name is non-empty, map
it under `(residue, name)`.  The vector update precedes the `try` block, so it
persists when `residue()` throws. -/
def Dihedral_Mgr.add_dihedral (m : Dihedral_Mgr) (dp : ℕ) (d : Proper_Dihedral_Obj) :
    Dihedral_Mgr :=
  let ds := if dp ∈ m.dihedrals then m.dihedrals else m.dihedrals ++ [dp]
  match d.residue with
  | none => { m with dihedrals := ds }
  | some r =>
    if d.name ≠ "" then
      { m with
        dihedrals := ds,
        residue_map := alist_set m.residue_map r
          (alist_set ((alist_lookup m.residue_map r).getD []) d.name dp) }
    else
      { m with dihedrals := ds }

/-- `Dihedral_Mgr::destructors_done(destroyed)`: drop every `(name, DType*)`
entry whose dihedral pointer is in `destroyed`, drop every residue entry whose
residue pointer is in `destroyed`, and drop destroyed pointers from the
dihedral vector.  The atoms of the dihedrals are never consulted. -/
def Dihedral_Mgr.destructors_done (m : Dihedral_Mgr) (destroyed : List ℕ) : Dihedral_Mgr :=
  { m with
    residue_map :=
      (m.residue_map.map (fun rm => (rm.1, rm.2.filter (fun e => e.2 ∉ destroyed)))).filter
        (fun rm => rm.1 ∉ destroyed),
    dihedrals := m.dihedrals.filter (fun dp => dp ∉ destroyed) }

/-- A fold of `add_dihedral` over a call sequence. -/
def Dihedral_Mgr.add_dihedral_list (m : Dihedral_Mgr) (l : List (ℕ × Proper_Dihedral_Obj)) :
    Dihedral_Mgr :=
  l.foldl (fun acc pd => acc.add_dihedral pd.1 pd.2) m

theorem add_dihedral_dihedrals_eq (m : Dihedral_Mgr) (dp : ℕ) (d : Proper_Dihedral_Obj) :
    (m.add_dihedral dp d).dihedrals =
      if dp ∈ m.dihedrals then m.dihedrals else m.dihedrals ++ [dp] := by
  unfold Dihedral_Mgr.add_dihedral
  cases d.residue with
  | none => rfl
  | some r =>
    by_cases h : d.name ≠ "" <;> simp [h]

theorem add_dihedral_nodup (m : Dihedral_Mgr) (dp : ℕ) (d : Proper_Dihedral_Obj)
    (h : m.dihedrals.Nodup) : (m.add_dihedral dp d).dihedrals.Nodup := by
  rw [add_dihedral_dihedrals_eq]
  by_cases hmem : dp ∈ m.dihedrals
  · simpa [hmem]
  · simp [hmem, List.nodup_append, h]

theorem add_dihedral_list_nodup (l : List (ℕ × Proper_Dihedral_Obj)) (m : Dihedral_Mgr)
    (h : m.dihedrals.Nodup) : (m.add_dihedral_list l).dihedrals.Nodup := by
  induction l generalizing m with
  | nil => exact h
  | cons pd rest ih => exact ih _ (add_dihedral_nodup m pd.1 pd.2 h)

/-! ## Claim C10: idempotence of add_dihedral -/

/-- Claim C10: `add_dihedral` is idempotent on the dihedral vector: adding a
pointer already stored leaves the vector unchanged, the vector stays
duplicate-free with the added pointer appearing exactly once, and along every
sequence of `add_dihedral` calls from a fresh manager the vector remains
duplicate-free. -/
theorem add_dihedral_idempotent (m : Dihedral_Mgr) (dp : ℕ) (d : Proper_Dihedral_Obj)
    (l : List (ℕ × Proper_Dihedral_Obj)) :
    (dp ∈ m.dihedrals → (m.add_dihedral dp d).dihedrals = m.dihedrals) ∧
    (m.dihedrals.Nodup →
       (m.add_dihedral dp d).dihedrals.Nodup ∧
       (m.add_dihedral dp d).dihedrals.count dp = 1) ∧
    (Dihedral_Mgr.init.add_dihedral_list l).dihedrals.Nodup := by
  refine ⟨fun hmem => ?_, fun hnd => ⟨add_dihedral_nodup m dp d hnd, ?_⟩,
    add_dihedral_list_nodup l Dihedral_Mgr.init (by simp [Dihedral_Mgr.init])⟩
  · rw [add_dihedral_dihedrals_eq, if_pos hmem]
  · have hmem2 : dp ∈ (m.add_dihedral dp d).dihedrals := by
      rw [add_dihedral_dihedrals_eq]
      by_cases hmem : dp ∈ m.dihedrals <;> simp [hmem]
    exact List.count_eq_one_of_mem (add_dihedral_nodup m dp d hnd) hmem2

/-- Witness for C10: adding the already-stored pointer `2` to a concrete
manager changes nothing and leaves it appearing exactly once. -/
theorem add_dihedral_idempotent_witness :
    ((Dihedral_Mgr.mk [] [] [2, 5]).add_dihedral 2 ⟨[10, 11, 12, 13], some 1, "phi"⟩).dihedrals
        = [2, 5] ∧
    ((Dihedral_Mgr.mk [] [] [2, 5]).add_dihedral 2
        ⟨[10, 11, 12, 13], some 1, "phi"⟩).dihedrals.Nodup ∧
    ((Dihedral_Mgr.mk [] [] [2, 5]).add_dihedral 2
        ⟨[10, 11, 12, 13], some 1, "phi"⟩).dihedrals.count 2 = 1 :=
  ⟨(add_dihedral_idempotent (Dihedral_Mgr.mk [] [] [2, 5]) 2
      ⟨[10, 11, 12, 13], some 1, "phi"⟩ []).1 (by decide),
   ((add_dihedral_idempotent (Dihedral_Mgr.mk [] [] [2, 5]) 2
      ⟨[10, 11, 12, 13], some 1, "phi"⟩ []).2.1 (by decide)).1,
   ((add_dihedral_idempotent (Dihedral_Mgr.mk [] [] [2, 5]) 2
      ⟨[10, 11, 12, 13], some 1, "phi"⟩ []).2.1 (by decide)).2⟩

/-! ## Claim C8: duplicate dihedral definitions -/

/-- Claim C8: `add_dihedral_def` raises the duplicate-definition error and
leaves the registry untouched (the manager is returned as it was) when a
definition for the `(residue_type, name)` pair already exists; when no such
pair exists the definition is stored and retrievable via
`get_dihedral_def`. -/
theorem add_dihedral_def_spec (m : Dihedral_Mgr) (rname dname : String)
    (anames : List String) (externals : List Bool) :
    (∀ dd, m.get_dihedral_def rname dname = Except.ok dd →
       m.add_dihedral_def rname dname anames externals =
         (m, some "Dihedral definition already exists!")) ∧
    (m.get_dihedral_def rname dname = Except.error "Unrecognised dihedral def!" →
       ∃ m', m.add_dihedral_def rname dname anames externals = (m', none) ∧
         m'.get_dihedral_def rname dname = Except.ok (anames, externals)) := by
  constructor
  · intro dd hok
    cases hr : alist_lookup m.residue_name_map rname with
    | none => simp [Dihedral_Mgr.get_dihedral_def, hr] at hok
    | some am =>
      cases hd : alist_lookup am dname with
      | none => simp [Dihedral_Mgr.get_dihedral_def, hr, hd] at hok
      | some dd2 => simp [Dihedral_Mgr.add_dihedral_def, hr, hd]
  · intro herr
    have hnone : alist_lookup ((alist_lookup m.residue_name_map rname).getD []) dname = none := by
      cases hr : alist_lookup m.residue_name_map rname with
      | none => simp [alist_lookup]
      | some am =>
        cases hd : alist_lookup am dname with
        | none => simp [hr, hd]
        | some dd => simp [Dihedral_Mgr.get_dihedral_def, hr, hd] at herr
    refine ⟨⟨m.residue_map,
      alist_set m.residue_name_map rname
        (alist_set ((alist_lookup m.residue_name_map rname).getD []) dname
          (anames, externals)),
      m.dihedrals⟩, ?_, ?_⟩
    · simp [Dihedral_Mgr.add_dihedral_def, hnone]
    · simp [Dihedral_Mgr.get_dihedral_def, alist_lookup_set_self]

/-- A manager whose definition registry already holds a definition for the
`("ALA", "phi")` pair. -/
def exMgrC8 : Dihedral_Mgr := ⟨[], [("ALA", [("phi", (["N", "CA"], [true, false]))])], []⟩

/-- Witness for C8: on a registry holding an `("ALA", "phi")` definition the
duplicate is rejected with the registry unchanged, and on the empty registry
the definition is stored and retrievable. -/
theorem add_dihedral_def_spec_witness :
    (Dihedral_Mgr.add_dihedral_def exMgrC8 "ALA" "phi" ["C", "O"] [false, false] =
      (exMgrC8, some "Dihedral definition already exists!")) ∧
    (∃ m', Dihedral_Mgr.add_dihedral_def Dihedral_Mgr.init "ALA" "phi" ["N", "CA"] [true, false] =
        (m', none) ∧
       Dihedral_Mgr.get_dihedral_def m' "ALA" "phi" = Except.ok (["N", "CA"], [true, false])) :=
  ⟨(add_dihedral_def_spec exMgrC8 "ALA" "phi" ["C", "O"] [false, false]).1
      (["N", "CA"], [true, false]) rfl,
   (add_dihedral_def_spec Dihedral_Mgr.init "ALA" "phi" ["N", "CA"] [true, false]).2 rfl⟩

/-! ## Claim C1: destruction purge -/

/-- A manager holding one mapped dihedral: residue `1` maps name `"phi"` to
dihedral `2`, and the dihedral vector holds `2`. -/
def exMgrC1 : Dihedral_Mgr := ⟨[(1, [("phi", 2)])], [], [2]⟩

/-- The object behind dihedral pointer `2`: it references atoms `10`-`13` and
belongs to residue `1`. -/
def exDihedralC1 : Proper_Dihedral_Obj := ⟨[10, 11, 12, 13], some 1, "phi"⟩

/-- Claim C1 evaluated at the failing input: dihedral `2` references atom
`10`, yet `destructors_done {10}` leaves the manager bit-for-bit unchanged and
`num_mapped_dihedrals` does not decrease, because the purge compares only the
dihedral pointer and the residue pointer against the destroyed set and never
consults the dihedral's atoms. -/
theorem destructors_done_ignores_atoms :
    (10 ∈ exDihedralC1.atoms) ∧
    alist_lookup exMgrC1.residue_map 1 = some [("phi", 2)] ∧
    exMgrC1.destructors_done [10] = exMgrC1 ∧
    (exMgrC1.destructors_done [10]).num_mapped_dihedrals = 1 := by
  refine ⟨by decide, rfl, rfl, rfl⟩

/-! ## Restraint managers (src/unnamed/part_003, position_restraints.h,
src/isolde/src/restraints_cpp/distance_restraints.cpp)

An atom is embedded by the pieces of the external graph the restraint code
reads: its identity, the identity of its owning structure, its element number,
its coordinate and its bonds (each bond as the pair of atom identities it
joins, as walked by `for (auto b : a1->bonds()) for (auto a : b->atoms())`). -/

structure Atom where
  id : ℕ
  struct : ℕ
  element_number : ℕ
  coord : ℚ × ℚ × ℚ
  bonds : List (ℕ × ℕ)
deriving DecidableEq

structure Position_Restraint_Mgr where
  atomic_model : ℕ
  atom_to_restraint : List (ℕ × Position_Restraint)
deriving DecidableEq

/-- `Position_Restraint_Mgr_Base::_new_restraint(atom, target)`: rejects atoms
of a foreign structure and hydrogens, otherwise constructs the restraint
(spring constant `0`, disabled, target as given) and maps it under the
atom. -/
def Position_Restraint_Mgr.new_restraint (m : Position_Restraint_Mgr) (a : Atom)
    (target : ℚ × ℚ × ℚ) : Except String (Position_Restraint × Position_Restraint_Mgr) :=
  if a.struct ≠ m.atomic_model then
    Except.error "This atom is in the wrong structure!"
  else if a.element_number = 1 then
    Except.error "Restraints on hydrogen atoms are not allowed!"
  else
    let restraint : Position_Restraint :=
      { atom := a.id, target := target, spring_constant := 0, enabled := false }
    Except.ok (restraint,
      { m with atom_to_restraint := alist_set m.atom_to_restraint a.id restraint })

/-- `Position_Restraint_Mgr_Base::get_restraint(atom, create)`: the cached
restraint when present, otherwise `_new_restraint(atom, atom->coord())` when
`create` and a null result when not. -/
def Position_Restraint_Mgr.get_restraint (m : Position_Restraint_Mgr) (a : Atom)
    (create : Bool) : Except String (Option Position_Restraint × Position_Restraint_Mgr) :=
  match alist_lookup m.atom_to_restraint a.id with
  | some r => Except.ok (some r, m)
  | none =>
    if create then
      (m.new_restraint a a.coord).map (fun p => (some p.1, p.2))
    else
      Except.ok (none, m)

/-- The bonded-pair check of `Distance_Restraint::Distance_Restraint(a1, a2,
mgr)` from the source: the constructor throws when `a2` occurs among the atoms
of any of `a1`'s bonds. -/
def distance_restraint_bonded_check (a1 a2 : Atom) : Bool :=
  a1.bonds.any (fun b => b.1 = a2.id ∨ b.2 = a2.id)

structure Distance_Restraint_Mgr where
  atomic_model : ℕ
  pair_to_restraint : List ((ℕ × ℕ) × Distance_Restraint)
deriving DecidableEq

/-- Modelled from the spec: `Distance_Restraint_Mgr_Tmpl<DType>::get_restraint
(Atom*, Atom*, bool create)` is not among the sampled sources (only its
Python-layer caller in src/unnamed/part_004 is).  Per the spec it returns the
existing restraint for the atom pair; when absent it returns a null result
unless `create` is set, in which case it constructs a new restraint with
spring constant `0` and disabled, failing with DomainError when an atom
belongs to a different structure than the manager's bound structure or when
the two atoms are directly bonded.  The bonded check is
`distance_restraint_bonded_check`, taken from the `Distance_Restraint`
constructor in the source; the initial target, which neither the spec nor the
sampled source fixes, is taken to be the `MIN_DISTANCE_RESTRAINT_TARGET`
floor. -/
def Distance_Restraint_Mgr.get_restraint (m : Distance_Restraint_Mgr) (a1 a2 : Atom)
    (create : Bool) : Except String (Option Distance_Restraint × Distance_Restraint_Mgr) :=
  match (alist_lookup m.pair_to_restraint (a1.id, a2.id)).orElse
      (fun _ => alist_lookup m.pair_to_restraint (a2.id, a1.id)) with
  | some r => Except.ok (some r, m)
  | none =>
    if create then
      if a1.struct ≠ m.atomic_model ∨ a2.struct ≠ m.atomic_model then
        Except.error "This atom is in the wrong structure!"
      else if distance_restraint_bonded_check a1 a2 then
        Except.error "Distance restraints are not allowed between bonded atoms!"
      else
        let restraint : Distance_Restraint :=
          { atom1 := a1.id, atom2 := a2.id, target := MIN_DISTANCE_RESTRAINT_TARGET,
            spring_constant := 0, enabled := false }
        Except.ok (some restraint,
          { m with pair_to_restraint :=
              alist_set m.pair_to_restraint (a1.id, a2.id) restraint })
    else
      Except.ok (none, m)

/-! ## Claim C3: get_restraint -/

/-- Claim C3: `get_restraint(atom[, atom2], create)` returns the existing
restraint when present; a null result (no error) when absent and `create` is
false; and when absent and `create` is true it constructs a restraint with
spring constant `0` and disabled (target at the atom's current coordinate in
the position case), except that construction fails with DomainError for an
atom of a foreign structure, a hydrogen (position case), or a directly bonded
pair (distance case). -/
theorem get_restraint_spec (Pm : Position_Restraint_Mgr) (Dm : Distance_Restraint_Mgr)
    (a a1 a2 : Atom) (create : Bool) :
    (∀ r, alist_lookup Pm.atom_to_restraint a.id = some r →
       Pm.get_restraint a create = Except.ok (some r, Pm)) ∧
    (alist_lookup Pm.atom_to_restraint a.id = none →
       Pm.get_restraint a false = Except.ok (none, Pm)) ∧
    (alist_lookup Pm.atom_to_restraint a.id = none → a.struct = Pm.atomic_model →
       a.element_number ≠ 1 →
       ∃ r Pm', Pm.get_restraint a true = Except.ok (some r, Pm') ∧
         r.spring_constant = 0 ∧ r.enabled = false ∧ r.target = a.coord ∧
         alist_lookup Pm'.atom_to_restraint a.id = some r) ∧
    (alist_lookup Pm.atom_to_restraint a.id = none → a.struct ≠ Pm.atomic_model →
       Pm.get_restraint a true = Except.error "This atom is in the wrong structure!") ∧
    (alist_lookup Pm.atom_to_restraint a.id = none → a.struct = Pm.atomic_model →
       a.element_number = 1 →
       Pm.get_restraint a true = Except.error "Restraints on hydrogen atoms are not allowed!") ∧
    (∀ r, (alist_lookup Dm.pair_to_restraint (a1.id, a2.id)).orElse
        (fun _ => alist_lookup Dm.pair_to_restraint (a2.id, a1.id)) = some r →
       Dm.get_restraint a1 a2 create = Except.ok (some r, Dm)) ∧
    ((alist_lookup Dm.pair_to_restraint (a1.id, a2.id)).orElse
        (fun _ => alist_lookup Dm.pair_to_restraint (a2.id, a1.id)) = none →
       Dm.get_restraint a1 a2 false = Except.ok (none, Dm)) ∧
    ((alist_lookup Dm.pair_to_restraint (a1.id, a2.id)).orElse
        (fun _ => alist_lookup Dm.pair_to_restraint (a2.id, a1.id)) = none →
       a1.struct = Dm.atomic_model → a2.struct = Dm.atomic_model →
       distance_restraint_bonded_check a1 a2 = false →
       ∃ r Dm', Dm.get_restraint a1 a2 true = Except.ok (some r, Dm') ∧
         r.spring_constant = 0 ∧ r.enabled = false) ∧
    ((alist_lookup Dm.pair_to_restraint (a1.id, a2.id)).orElse
        (fun _ => alist_lookup Dm.pair_to_restraint (a2.id, a1.id)) = none →
       a1.struct = Dm.atomic_model → a2.struct = Dm.atomic_model →
       distance_restraint_bonded_check a1 a2 = true →
       Dm.get_restraint a1 a2 true =
         Except.error "Distance restraints are not allowed between bonded atoms!") := by
  refine ⟨fun r hr => ?_, fun hn => ?_, fun hn hs hh => ?_, fun hn hs => ?_,
    fun hn hs hh => ?_, fun r hr => ?_, fun hn => ?_, fun hn hs1 hs2 hb => ?_,
    fun hn hs1 hs2 hb => ?_⟩
  · simp [Position_Restraint_Mgr.get_restraint, hr]
  · simp [Position_Restraint_Mgr.get_restraint, hn]
  · refine ⟨⟨a.id, a.coord, 0, false⟩,
      ⟨Pm.atomic_model, alist_set Pm.atom_to_restraint a.id ⟨a.id, a.coord, 0, false⟩⟩,
      ?_, rfl, rfl, rfl, alist_lookup_set_self _ _ _⟩
    simp [Position_Restraint_Mgr.get_restraint, hn,
      Position_Restraint_Mgr.new_restraint, hs, hh, Except.map]
  · simp [Position_Restraint_Mgr.get_restraint, hn,
      Position_Restraint_Mgr.new_restraint, hs, Except.map]
  · simp [Position_Restraint_Mgr.get_restraint, hn,
      Position_Restraint_Mgr.new_restraint, hs, hh, Except.map]
  · simp [Distance_Restraint_Mgr.get_restraint, hr]
  · simp [Distance_Restraint_Mgr.get_restraint, hn]
  · refine ⟨⟨a1.id, a2.id, MIN_DISTANCE_RESTRAINT_TARGET, 0, false⟩,
      ⟨Dm.atomic_model, alist_set Dm.pair_to_restraint (a1.id, a2.id)
        ⟨a1.id, a2.id, MIN_DISTANCE_RESTRAINT_TARGET, 0, false⟩⟩,
      ?_, rfl, rfl⟩
    simp [Distance_Restraint_Mgr.get_restraint, hn, hs1, hs2, hb]
  · simp [Distance_Restraint_Mgr.get_restraint, hn, hs1, hs2, hb]

/-- Witness for C3: on fresh managers bound to structure `7`, creating a
position restraint on a carbon of structure `7` succeeds with spring constant
`0`, disabled, target at the atom's coordinate; a hydrogen and a
foreign-structure atom are rejected; a bonded pair is rejected for a distance
restraint while an unbonded pair succeeds. -/
theorem get_restraint_spec_witness :
    (∃ r Pm', (Position_Restraint_Mgr.mk 7 []).get_restraint ⟨1, 7, 6, (1, 2, 3), []⟩ true =
        Except.ok (some r, Pm') ∧
      r.spring_constant = 0 ∧ r.enabled = false ∧ r.target = (1, 2, 3) ∧
      alist_lookup Pm'.atom_to_restraint 1 = some r) ∧
    ((Position_Restraint_Mgr.mk 7 []).get_restraint ⟨2, 7, 1, (0, 0, 0), []⟩ true =
      Except.error "Restraints on hydrogen atoms are not allowed!") ∧
    ((Position_Restraint_Mgr.mk 7 []).get_restraint ⟨3, 8, 6, (0, 0, 0), []⟩ true =
      Except.error "This atom is in the wrong structure!") ∧
    ((Distance_Restraint_Mgr.mk 7 []).get_restraint ⟨4, 7, 6, (0, 0, 0), [(4, 5)]⟩
        ⟨5, 7, 6, (1, 1, 1), []⟩ true =
      Except.error "Distance restraints are not allowed between bonded atoms!") ∧
    (∃ r Dm', (Distance_Restraint_Mgr.mk 7 []).get_restraint ⟨4, 7, 6, (0, 0, 0), []⟩
        ⟨5, 7, 6, (1, 1, 1), []⟩ true = Except.ok (some r, Dm') ∧
      r.spring_constant = 0 ∧ r.enabled = false) :=
  ⟨(get_restraint_spec (Position_Restraint_Mgr.mk 7 []) (Distance_Restraint_Mgr.mk 7 [])
      ⟨1, 7, 6, (1, 2, 3), []⟩ ⟨4, 7, 6, (0, 0, 0), []⟩ ⟨5, 7, 6, (1, 1, 1), []⟩
      false).2.2.1 rfl rfl (by decide),
   (get_restraint_spec (Position_Restraint_Mgr.mk 7 []) (Distance_Restraint_Mgr.mk 7 [])
      ⟨2, 7, 1, (0, 0, 0), []⟩ ⟨4, 7, 6, (0, 0, 0), []⟩ ⟨5, 7, 6, (1, 1, 1), []⟩
      false).2.2.2.2.1 rfl rfl rfl,
   (get_restraint_spec (Position_Restraint_Mgr.mk 7 []) (Distance_Restraint_Mgr.mk 7 [])
      ⟨3, 8, 6, (0, 0, 0), []⟩ ⟨4, 7, 6, (0, 0, 0), []⟩ ⟨5, 7, 6, (1, 1, 1), []⟩
      false).2.2.2.1 rfl (by decide),
   (get_restraint_spec (Position_Restraint_Mgr.mk 7 []) (Distance_Restraint_Mgr.mk 7 [])
      ⟨1, 7, 6, (1, 2, 3), []⟩ ⟨4, 7, 6, (0, 0, 0), [(4, 5)]⟩ ⟨5, 7, 6, (1, 1, 1), []⟩
      false).2.2.2.2.2.2.2.2 rfl rfl rfl rfl,
   (get_restraint_spec (Position_Restraint_Mgr.mk 7 []) (Distance_Restraint_Mgr.mk 7 [])
      ⟨1, 7, 6, (1, 2, 3), []⟩ ⟨4, 7, 6, (0, 0, 0), []⟩ ⟨5, 7, 6, (1, 1, 1), []⟩
      false).2.2.2.2.2.2.2.1 rfl rfl rfl rfl⟩

end Isolde
